import Mathlib

/-!
Shallow embedding of the API-monitoring backend (src/main.py, src/schemas.py).

The document store is modelled as in-memory lists of (id, record) pairs kept
in insertion order; `find_one` is the first list element matching the filter,
mirroring the store's natural-order scan.  The generic storage adapter
(`database.py`: `create_document`, `get_documents`) is not among the sources;
where its behaviour matters it is modelled from the spec (see
`create_document_apievent` and the comments on `list_keys`).

Timestamps are integers (seconds since the epoch); `latency_ms` is modelled
as a rational number.  Nondeterministic inputs of a handler call — the
generated token, the generated record id, and the current server time — are
passed as explicit arguments.
-/

/-- A string parses as a BSON ObjectId (as in `bson.ObjectId(s)`) iff it is a
24-character hexadecimal string. -/
def isValidObjectId (s : String) : Bool :=
  s.length == 24 && s.data.all (fun c =>
    c.isDigit || (('a' ≤ c && c ≤ 'f') || ('A' ≤ c && c ≤ 'F')))

/-- schemas.py: `Project`. -/
structure Project where
  name : String
  slug : String
  description : Option String
  deriving DecidableEq, Repr

/-- schemas.py: `Apikey`. -/
structure Apikey where
  project_id : String
  name : String
  key : String
  active : Bool
  deriving DecidableEq, Repr

/-- schemas.py: `Apievent` — the validated event record as constructed by the
ingestion handler (no `created_at` field; the pydantic model does not declare
one). -/
structure Apievent where
  project_id : String
  api_key_id : Option String
  method : String
  path : String
  status : Int
  latency_ms : ℚ
  ip : Option String
  user_agent : Option String
  request_size : Option Int
  response_size : Option Int
  error_message : Option String
  deriving DecidableEq, Repr

/-- An event document as persisted in the `apievent` collection: the record
fields plus the server-assigned `created_at` timestamp. -/
structure StoredEvent extends Apievent where
  created_at : Int
  deriving DecidableEq, Repr

/-- The document store: one list per collection, `(generated id, document)`
pairs in insertion order. -/
structure DB where
  projects : List (String × Project)
  apikeys : List (String × Apikey)
  apievents : List (String × StoredEvent)
  deriving DecidableEq, Repr

/-- An HTTP error response (`HTTPException(status_code, detail)`). -/
structure HErr where
  status : Nat
  detail : String
  deriving DecidableEq, Repr

/-- main.py: `IngestEvent` request model. -/
structure IngestEvent where
  project_slug : String
  api_key : Option String
  method : String
  path : String
  status : Int
  latency_ms : ℚ
  ip : Option String
  user_agent : Option String
  request_size : Option Int
  response_size : Option Int
  error_message : Option String
  deriving DecidableEq, Repr

/-- The seven method literals accepted by `Apievent.method` (schemas.py). -/
def httpMethods : List String :=
  ["GET", "POST", "PUT", "PATCH", "DELETE", "OPTIONS", "HEAD"]

/-- Pydantic field validation performed by the `Apievent` constructor
(schemas.py lines 24–31): method enum, `100 ≤ status ≤ 599`,
`latency_ms ≥ 0`, sizes `≥ 0` when present. -/
def optNonneg : Option Int → Bool
  | none => true
  | some n => decide (0 ≤ n)

def apieventValid (e : Apievent) : Bool :=
  httpMethods.contains e.method &&
  decide (100 ≤ e.status) && decide (e.status ≤ 599) &&
  decide (0 ≤ e.latency_ms) &&
  optNonneg e.request_size && optNonneg e.response_size

/-- Python truthiness-based `a or b` on two `Optional[str]` values:
`None` and `""` are falsy, so the result is `a` unless `a` is `None` or
`""`, in which case it is `b`. -/
def pyOrStr : Option String → Option String → Option String
  | some s, b => if s == "" then b else some s
  | none, b => b

/-- Python `str.strip()`: drop leading and trailing whitespace. -/
def pyStrip (s : String) : String :=
  ⟨((s.data.dropWhile Char.isWhitespace).reverse.dropWhile Char.isWhitespace).reverse⟩

/-- main.py line 122: `x_forwarded_for.split(",")[0].strip()` — the first
comma-separated entry is the prefix of the header up to the first comma
(the whole header when it has no comma), with surrounding whitespace
stripped. -/
def firstForwardedEntry (h : String) : String :=
  pyStrip ⟨h.data.takeWhile (fun c => c ≠ ',')⟩

/-- main.py line 122, the parenthesised conditional: the first
comma-separated entry of the forwarded-for header if that header is truthy
(present and non-empty), else `None`. -/
def headerIp : Option String → Option String
  | some h => if h == "" then none else some (firstForwardedEntry h)
  | none => none

/-- main.py lines 116–120: `api_key_id` is resolved only when the submitted
`api_key` is truthy, by a `find_one` for a key with that value, the resolved
project id, and `active == true`. -/
def resolveApiKeyId (db : DB) (projId : String) : Option String → Option String
  | some s =>
      if s == "" then none
      else (db.apikeys.find? (fun k =>
        k.2.key == s && k.2.project_id == projId && k.2.active)).map (fun k => k.1)
  | none => none

/-- main.py lines 116–137: the `Apievent` record the ingestion handler
constructs for the project resolved to id `projId`. -/
def buildEvent (db : DB) (ev : IngestEvent) (xff uaHeader : Option String)
    (projId : String) : Apievent :=
  { project_id := projId
    api_key_id := resolveApiKeyId db projId ev.api_key
    method := ev.method
    path := ev.path
    status := ev.status
    latency_ms := ev.latency_ms
    ip := pyOrStr ev.ip (headerIp xff)
    user_agent := pyOrStr ev.user_agent uaHeader
    request_size := ev.request_size
    response_size := ev.response_size
    error_message := ev.error_message }

/-- Modelled from the spec: `create_document` for the `apievent` collection
(database.py, not among the sources).  Spec §4.4 step (6): "Persist with
server-assigned creation timestamp"; §9 treats `created_at` as a required
field set at insert time.  The insert appends one document carrying the
record fields plus `created_at := now`, and returns the generated id. -/
def create_document_apievent (db : DB) (e : Apievent) (new_id : String)
    (now : Int) : DB × String :=
  ({ db with apievents := db.apievents ++ [(new_id, ⟨e, now⟩)] }, new_id)

/-- main.py lines 71–76: `create_project`.  Inserts the validated project and
returns the generated id. -/
def create_project (db : DB) (name slug : String) (description : Option String)
    (new_id : String) : DB × String :=
  ({ db with projects := db.projects ++ [(new_id, ⟨name, slug, description⟩)] }, new_id)

/-- main.py lines 84–99: `create_key`.  `key_value` is the token produced by
`secrets.token_urlsafe(24)` and `new_id` the id the store generates.  The
whole project lookup sits inside `try: ... except Exception:`, and
`HTTPException` is an `Exception`, so the 404 raised when the project is
missing is caught and re-raised as the 400 "Invalid project id" error: the
handler can only ever fail with status 400. -/
def create_key (db : DB) (project_id name key_value new_id : String) :
    Except HErr (DB × String × String) :=
  if isValidObjectId project_id then
    match db.projects.find? (fun p => p.1 == project_id) with
    | some _ =>
        Except.ok
          ({ db with apikeys := db.apikeys ++ [(new_id, ⟨project_id, name, key_value, true⟩)] },
           new_id, key_value)
    | none => Except.error ⟨400, "Invalid project id"⟩
  else Except.error ⟨400, "Invalid project id"⟩

/-- The shape of one record in the list-keys response: `to_str_id` renames
`_id` to `id` and keeps every other stored field — including `key`. -/
structure ApikeyOut where
  id : String
  project_id : String
  name : String
  key : String
  active : Bool
  deriving DecidableEq, Repr

/-- main.py lines 101–104: `list_keys`.  `get_documents` (database.py, not
among the sources) is modelled from spec §4.1 as a generic find returning
full documents, filtered by exact `project_id` match, limited to 100. -/
def list_keys (db : DB) (project_id : String) : List ApikeyOut :=
  ((db.apikeys.filter (fun k => k.2.project_id == project_id)).take 100).map
    (fun k => ⟨k.1, k.2.project_id, k.2.name, k.2.key, k.2.active⟩)

/-- main.py lines 107–139: `ingest`.  Resolves the project by slug
(`find_one`, first match in natural order), builds the event record,
validates it (a pydantic `ValidationError` from the `Apievent` constructor
propagates as an error response), and persists it. -/
def ingest (db : DB) (ev : IngestEvent) (xff uaHeader : Option String)
    (new_id : String) (now : Int) : Except HErr (DB × String) :=
  match db.projects.find? (fun p => p.2.slug == ev.project_slug) with
  | none => Except.error ⟨404, "Project not found"⟩
  | some pr =>
      if apieventValid (buildEvent db ev xff uaHeader pr.1) then
        Except.ok (create_document_apievent db (buildEvent db ev xff uaHeader pr.1) new_id now)
      else Except.error ⟨500, "ValidationError"⟩

/-- main.py line 169: `$dateTrunc` with unit hour truncates a timestamp down
to the start of its containing hour. -/
def truncHour (t : Int) : Int := 3600 * (t.fdiv 3600)

/-- main.py lines 166–173: the hourly aggregation pipeline over the events of
one project — match `created_at ≥ since`, group by the hour-truncated
timestamp with a count per group, sort ascending by group key. -/
def hourlySeries (events : List StoredEvent) (since : Int) : List (Int × Nat) :=
  let window := events.filter (fun e => decide (since ≤ e.created_at))
  let hours := (window.map (fun e => truncHour e.created_at)).dedup
  (List.insertionSort (· ≤ ·) hours).map
    (fun h => (h, (window.filter (fun e => truncHour e.created_at == h)).length))

/-- The stats response body (main.py lines 176–181); bucket start times are
kept as integer timestamps rather than ISO strings. -/
structure StatsResp where
  total : Nat
  errors : Nat
  avg_latency : ℚ
  hourly : List (Int × Nat)
  deriving DecidableEq, Repr

/-- The stored event documents whose `project_id` matches the query value —
the filter `{"project_id": project_id}` shared by every query of
`project_stats`. -/
def matchingEvents (db : DB) (project_id : String) : List (String × StoredEvent) :=
  db.apievents.filter (fun e => e.2.project_id == project_id)

/-- main.py lines 156–161: the `$avg` pipeline over the matching events —
the arithmetic mean of `latency_ms`, with `agg[0]["avg"] if agg else 0`
yielding `0` when no document matches. -/
def avgLatency (matching : List (String × StoredEvent)) : ℚ :=
  if matching.isEmpty then 0
  else ((matching.map (fun e => e.2.latency_ms)).sum) / matching.length

/-- main.py lines 142–181: `project_stats`.  `now` is the server's current
UTC time at the moment of the call. -/
def project_stats (db : DB) (project_id : String) (now : Int) :
    Except HErr StatsResp :=
  if isValidObjectId project_id then
    Except.ok ⟨(matchingEvents db project_id).length,
      ((matchingEvents db project_id).filter (fun e => decide (400 ≤ e.2.status))).length,
      avgLatency (matchingEvents db project_id),
      hourlySeries ((matchingEvents db project_id).map (fun e => e.2)) (now - 86400)⟩
  else Except.error ⟨400, "Invalid project id"⟩

/-! ## Concrete states used as witnesses -/

/-- A well-formed ObjectId string. -/
def pid0 : String := "0123456789abcdef01234567"

/-- A second, distinct well-formed ObjectId string. -/
def pidB : String := "aaaaaaaaaaaaaaaaaaaaaaaa"

/-- The empty store. -/
def db0 : DB := ⟨[], [], []⟩

/-- One project with slug "p" and id `pid0`. -/
def db1 : DB := (create_project db0 "Demo" "p" none pid0).1

/-- `db1` after issuing key "SECRETKEY" for `pid0` through `create_key`. -/
def db2 : DB := { db1 with apikeys := [("kid0", ⟨pid0, "k", "SECRETKEY", true⟩)] }

/-- A valid ingest payload for slug "p" with no optional fields. -/
def ev0 : IngestEvent := ⟨"p", none, "GET", "/", 200, 10, none, none, none, none, none⟩

def st0 : StoredEvent := ⟨buildEvent db1 ev0 none none pid0, 5000⟩

def db3 : DB := { db1 with apievents := [("eid0", st0)] }

/-- Two projects; the only key belongs to project `pidB`, not `pid0`. -/
def dbCross : DB :=
  ⟨[(pid0, ⟨"Demo", "p", none⟩), (pidB, ⟨"Other", "q", none⟩)],
   [("kidB", ⟨pidB, "kb", "OTHERKEY", true⟩)], []⟩

/-- An ingest payload addressing slug "p" with project `pidB`'s key. -/
def evCross : IngestEvent :=
  ⟨"p", some "OTHERKEY", "GET", "/", 200, 10, none, none, none, none, none⟩

def stCross : StoredEvent := ⟨buildEvent dbCross evCross none none pid0, 7000⟩

def dbCross' : DB := { dbCross with apievents := [("eidC", stCross)] }

/-- An event for project `pid0` with the given status, latency and creation
time. -/
def mkEvt (st : Int) (lat : ℚ) (created : Int) : StoredEvent :=
  ⟨⟨pid0, none, "GET", "/", st, lat, none, none, none, none, none⟩, created⟩

/-- Three events with statuses 200/404/500 and latencies 10/20/30. -/
def dbStats : DB :=
  ⟨[(pid0, ⟨"Demo", "p", none⟩)], [],
   [("e1", mkEvt 200 10 90000), ("e2", mkEvt 404 20 90000), ("e3", mkEvt 500 30 88000)]⟩

def sStats : StatsResp := ⟨3, 2, 20, [(86400, 1), (90000, 2)]⟩

/-- Four events: one before the 24-hour window of `now = 90000`, two sharing
the hour bucket 3600, one in bucket 90000. -/
def dbHour : DB :=
  ⟨[(pid0, ⟨"Demo", "p", none⟩)], [],
   [("h1", mkEvt 200 1 1000), ("h2", mkEvt 200 1 4000),
    ("h3", mkEvt 503 1 4100), ("h4", mkEvt 200 1 90000)]⟩

def sHour : StatsResp := ⟨4, 1, 1, [(3600, 2), (90000, 1)]⟩

/-- An ingest payload carrying an explicit `ip` alongside a forwarded-for
header. -/
def ev9 : IngestEvent :=
  ⟨"p", none, "GET", "/", 200, 10, some "1.2.3.4", none, none, none, none⟩

def st9 : StoredEvent := ⟨buildEvent db1 ev9 (some "9.9.9.9, 8.8.8.8") none pid0, 5000⟩

def db9 : DB := { db1 with apievents := [("eid9", st9)] }

/-- An ingest payload whose `ip` and `user_agent` fields are empty strings. -/
def ev10 : IngestEvent :=
  ⟨"p", none, "GET", "/", 200, 10, some "", some "", none, none, none⟩

def st10 : StoredEvent := ⟨buildEvent db1 ev10 (some "7.7.7.7") (some "UA") pid0, 5000⟩

def db10 : DB := { db1 with apievents := [("eid10", st10)] }

/-! ## Helper lemmas -/

/-- A successful ingest call resolves some project `pr` by slug, returns the
generated id, and appends exactly the built event with `created_at := now`. -/
theorem ingest_ok_elim (db : DB) (ev : IngestEvent) (xff uaH : Option String)
    (new_id : String) (now : Int) (db' : DB) (eid : String)
    (hok : ingest db ev xff uaH new_id now = Except.ok (db', eid)) :
    ∃ pr, db.projects.find? (fun p => p.2.slug == ev.project_slug) = some pr ∧
      eid = new_id ∧
      db' = { db with apievents :=
        db.apievents ++ [(new_id, ⟨buildEvent db ev xff uaH pr.1, now⟩)] } := by
  unfold ingest at hok
  split at hok
  · exact absurd hok (by simp)
  next pr hf =>
    split at hok
    · unfold create_document_apievent at hok
      rw [Except.ok.injEq, Prod.mk.injEq] at hok
      obtain ⟨hdb, hid⟩ := hok
      exact ⟨pr, hf, hid.symm, hdb.symm⟩
    · exact absurd hok (by simp)

/-- Bucket keys of the hourly series are the sorted dedup of the truncated
hours of the window events. -/
theorem hourlySeries_map_fst (events : List StoredEvent) (since : Int) :
    (hourlySeries events since).map Prod.fst =
      List.insertionSort (· ≤ ·)
        (((events.filter (fun e => decide (since ≤ e.created_at))).map
          (fun e => truncHour e.created_at)).dedup) := by
  unfold hourlySeries
  rw [List.map_map]
  exact List.map_id'' (fun x => rfl) _

/-- Membership in the hourly series characterised: the bucket key is the
truncated hour of some window event and the count is the number of window
events in that bucket. -/
theorem hourlySeries_mem (events : List StoredEvent) (since : Int) (hr : Int) (c : Nat) :
    (hr, c) ∈ hourlySeries events since ↔
      (hr ∈ (events.filter (fun e => decide (since ≤ e.created_at))).map
          (fun e => truncHour e.created_at) ∧
       c = ((events.filter (fun e => decide (since ≤ e.created_at))).filter
          (fun e => truncHour e.created_at == hr)).length) := by
  unfold hourlySeries
  rw [List.mem_map]
  constructor
  · rintro ⟨h', hmem, heq⟩
    rw [Prod.mk.injEq] at heq
    obtain ⟨h1, h2⟩ := heq
    subst h1
    refine ⟨?_, h2.symm⟩
    rw [← List.mem_dedup]
    exact ((List.perm_insertionSort _ _).mem_iff).mp hmem
  · rintro ⟨hmem, hc⟩
    refine ⟨hr, ?_, ?_⟩
    · exact ((List.perm_insertionSort _ _).mem_iff).mpr (List.mem_dedup.mpr hmem)
    · rw [hc]

/-- Two Bool predicates that agree on every element of a list produce the
same count. -/
theorem countP_ext {α : Type} (l : List α) (p q : α → Bool)
    (h : ∀ a ∈ l, p a = q a) : l.countP p = l.countP q := by
  induction l with
  | nil => rfl
  | cons a t ih =>
      rw [List.countP_cons, List.countP_cons, h a (by simp),
        ih (fun b hb => h b (by simp [hb]))]

/-! ## The claims -/

/-- Claim C1.  The spec states that the plaintext key value is returned only
by the issuance call and that the list-keys endpoint never includes it.  The
code violates this: `list_keys` returns each stored key document with only
`_id` renamed, so the plaintext `key` field is included.  Concretely, after
issuing key "SECRETKEY" for project `pid0` through `create_key`, listing the
keys of `pid0` yields one record whose `key` field is exactly "SECRETKEY". -/
theorem listKeys_returns_plaintext_key :
    create_key db1 pid0 "k" "SECRETKEY" "kid0" = Except.ok (db2, "kid0", "SECRETKEY") ∧
    (list_keys db2 pid0).map (fun r => r.key) = ["SECRETKEY"] :=
  ⟨by rfl, by rfl⟩

/-- Claim C2.  The claim (and the spec's table) says a well-formed
`project_id` matching no project fails with 404.  In the code the whole
lookup, including the `HTTPException(404)` raise, sits inside
`try: ... except Exception:`, which catches the 404 and re-raises
`HTTPException(400, "Invalid project id")`: the 404 branch is unreachable.
With the empty store and the well-formed id `pid0`, `create_key` returns
status 400, not 404 (and, failing, inserts no ApiKey record). -/
theorem createKey_missing_project_gives_400 :
    create_key db0 pid0 "k" "KV" "kid" = Except.error ⟨400, "Invalid project id"⟩ ∧
    (400 : Nat) ≠ 404 :=
  ⟨by rfl, by decide⟩

/-- Claim C3.  Every event accepted by the ingestion endpoint is persisted
with a server-assigned `created_at` timestamp set at insert time: a
successful ingest call appends exactly one stored event document whose
`created_at` equals the server time `now` of the call (storage-layer insert
modelled from the spec, see `create_document_apievent`). -/
theorem ingest_sets_created_at (db : DB) (ev : IngestEvent) (xff uaH : Option String)
    (new_id : String) (now : Int) (db' : DB) (eid : String)
    (hok : ingest db ev xff uaH new_id now = Except.ok (db', eid)) :
    ∃ st : StoredEvent, db'.apievents = db.apievents ++ [(eid, st)] ∧
      st.created_at = now := by
  obtain ⟨pr, _, hid, hdb⟩ := ingest_ok_elim db ev xff uaH new_id now db' eid hok
  subst hid
  subst hdb
  exact ⟨_, rfl, rfl⟩

/-- Witness for C3: ingesting `ev0` into `db1` at server time 5000 persists
one event with `created_at = 5000`. -/
theorem ingest_sets_created_at_witness :
    ∃ st : StoredEvent, db3.apievents = db1.apievents ++ [("eid0", st)] ∧
      st.created_at = 5000 :=
  ingest_sets_created_at db1 ev0 none none "eid0" 5000 db3 "eid0" (by rfl)

/-- Claim C4.  An ingestion call whose `project_slug` matches no existing
project fails with 404 "Project not found"; since the handler returns before
building or persisting anything, no ApiEvent record is written (the error
value carries no successor state). -/
theorem ingest_unknown_slug_404 (db : DB) (ev : IngestEvent) (xff uaH : Option String)
    (new_id : String) (now : Int)
    (habs : ∀ pr ∈ db.projects, pr.2.slug ≠ ev.project_slug) :
    ingest db ev xff uaH new_id now = Except.error ⟨404, "Project not found"⟩ := by
  unfold ingest
  have hf : db.projects.find? (fun p => p.2.slug == ev.project_slug) = none := by
    rw [List.find?_eq_none]
    intro p hp
    simpa using habs p hp
  rw [hf]

/-- Witness for C4: the empty store has no project with slug "p". -/
theorem ingest_unknown_slug_404_witness :
    ingest db0 ev0 none none "eidX" 0 = Except.error ⟨404, "Project not found"⟩ :=
  ingest_unknown_slug_404 db0 ev0 none none "eidX" 0
    (fun pr hpr => absurd hpr (List.not_mem_nil pr))

/-- Claim C5.  For a successful ingestion resolving project `pr`: if the
supplied `api_key` value matches no active key of `pr` (in particular a valid
key of a different project), the event is still persisted with
`api_key_id = none`; and `api_key_id` is non-`none` only when it is the id of
a stored key whose value is the submitted one, whose `project_id` is the
resolved project's id, and which is active. -/
theorem ingest_api_key_association (db : DB) (ev : IngestEvent) (xff uaH : Option String)
    (new_id : String) (now : Int) (pr : String × Project) (db' : DB) (eid : String)
    (hpr : db.projects.find? (fun p => p.2.slug == ev.project_slug) = some pr)
    (hok : ingest db ev xff uaH new_id now = Except.ok (db', eid)) :
    ∃ st : StoredEvent, db'.apievents = db.apievents ++ [(eid, st)] ∧
      ((∃ s, ev.api_key = some s ∧
          ∀ k ∈ db.apikeys, ¬(k.2.key = s ∧ k.2.project_id = pr.1 ∧ k.2.active = true)) →
        st.api_key_id = none) ∧
      (∀ kid, st.api_key_id = some kid →
        ∃ k ∈ db.apikeys, k.1 = kid ∧ ev.api_key = some k.2.key ∧
          k.2.project_id = pr.1 ∧ k.2.active = true) := by
  obtain ⟨pr', hpr', hid, hdb⟩ := ingest_ok_elim db ev xff uaH new_id now db' eid hok
  rw [hpr] at hpr'
  injection hpr' with hpr2
  subst hpr2
  subst hid
  subst hdb
  refine ⟨⟨buildEvent db ev xff uaH pr.1, now⟩, rfl, ?_, ?_⟩
  · rintro ⟨s, hs, hnone⟩
    show resolveApiKeyId db pr.1 ev.api_key = none
    rw [hs]
    simp only [resolveApiKeyId]
    split
    · rfl
    · rw [Option.map_eq_none', List.find?_eq_none]
      intro k hk
      simp only [Bool.and_eq_true, beq_iff_eq]
      rintro ⟨⟨h1, h2⟩, h3⟩
      exact hnone k hk ⟨h1, h2, h3⟩
  · intro kid hkid
    have hkid' : resolveApiKeyId db pr.1 ev.api_key = some kid := hkid
    cases hak : ev.api_key with
    | none =>
        rw [hak] at hkid'
        exact absurd hkid' (by simp [resolveApiKeyId])
    | some s =>
        rw [hak] at hkid'
        simp only [resolveApiKeyId] at hkid'
        by_cases hse : (s == "") = true
        · rw [if_pos hse] at hkid'
          cases hkid'
        · rw [if_neg hse] at hkid'
          obtain ⟨k, hk, hk1⟩ := Option.map_eq_some'.mp hkid'
          have hmem := List.mem_of_find?_eq_some hk
          have hq := List.find?_some hk
          simp only [Bool.and_eq_true, beq_iff_eq] at hq
          obtain ⟨⟨hq1, hq2⟩, hq3⟩ := hq
          refine ⟨k, hmem, hk1, ?_, hq2, hq3⟩
          rw [hq1]

/-- Witness for C5: project `pidB`'s key "OTHERKEY" submitted against slug
"p" (project `pid0`) yields a persisted event with `api_key_id = none`. -/
theorem ingest_api_key_association_witness :
    ∃ st : StoredEvent, dbCross'.apievents = dbCross.apievents ++ [("eidC", st)] ∧
      st.api_key_id = none := by
  obtain ⟨st, h1, h2, _⟩ := ingest_api_key_association dbCross evCross none none
    "eidC" 7000 (pid0, ⟨"Demo", "p", none⟩) dbCross' "eidC" (by rfl) (by rfl)
  exact ⟨st, h1, h2 ⟨"OTHERKEY", rfl, by decide⟩⟩

/-- Claim C6.  For any well-formed `project_id` with no matching events
(including the id of a project that does not exist), the stats endpoint
succeeds and returns all-zero statistics with an empty hourly series. -/
theorem stats_no_events_all_zero (db : DB) (pid : String) (now : Int)
    (hvalid : isValidObjectId pid = true)
    (hno : ∀ e ∈ db.apievents, e.2.project_id ≠ pid) :
    project_stats db pid now = Except.ok ⟨0, 0, 0, []⟩ := by
  have hm : matchingEvents db pid = [] := by
    rw [matchingEvents, List.filter_eq_nil_iff]
    intro e he
    simpa using hno e he
  unfold project_stats
  rw [hvalid, if_pos rfl, hm]
  rfl

/-- Witness for C6: `db1` holds project `pid0` but no events at all. -/
theorem stats_no_events_all_zero_witness :
    project_stats db1 pid0 12345 = Except.ok ⟨0, 0, 0, []⟩ :=
  stats_no_events_all_zero db1 pid0 12345 (by decide)
    (fun e he => absurd he (List.not_mem_nil e))

/-- Claim C7.  When a project has at least one event, the stats response has
`total` = the number of events with matching `project_id`, `errors` = the
number of those with `status ≥ 400`, and `avg_latency` = the arithmetic mean
of their `latency_ms` values. -/
theorem stats_aggregate_values (db : DB) (pid : String) (now : Int) (s : StatsResp)
    (hok : project_stats db pid now = Except.ok s)
    (hne : matchingEvents db pid ≠ []) :
    s.total = (matchingEvents db pid).length ∧
    s.errors = (matchingEvents db pid).countP (fun e => decide (400 ≤ e.2.status)) ∧
    s.avg_latency = ((matchingEvents db pid).map (fun e => e.2.latency_ms)).sum
      / ((matchingEvents db pid).length : ℚ) := by
  unfold project_stats at hok
  by_cases hv : isValidObjectId pid = true
  · rw [hv, if_pos rfl, Except.ok.injEq] at hok
    subst hok
    refine ⟨rfl, (List.countP_eq_length_filter _ _).symm, ?_⟩
    show avgLatency (matchingEvents db pid) = _
    unfold avgLatency
    rw [if_neg]
    intro hemp
    exact hne (List.isEmpty_iff.mp hemp)
  · exfalso
    rw [if_neg hv] at hok
    cases hok

/-- Evaluation of the stats endpoint on `dbStats` (statuses 200/404/500,
latencies 10/20/30): total 3, errors 2, average latency 20, one event in
hour bucket 86400 and two in bucket 90000. -/
theorem dbStats_stats_eval : project_stats dbStats pid0 90000 = Except.ok sStats := by
  have havg : avgLatency (matchingEvents dbStats pid0) = 20 := by
    have hm : matchingEvents dbStats pid0 =
        [("e1", mkEvt 200 10 90000), ("e2", mkEvt 404 20 90000), ("e3", mkEvt 500 30 88000)] := by
      decide
    rw [hm]
    unfold avgLatency
    norm_num [mkEvt]
  have hv : isValidObjectId pid0 = true := by decide
  unfold project_stats
  rw [hv, if_pos rfl, havg]
  exact congrArg Except.ok (by decide)

/-- Witness for C7, pinning the spec's concrete instance: on `dbStats` the
response `sStats = ⟨3, 2, 20, _⟩` satisfies the aggregate equations. -/
theorem stats_aggregate_values_witness :
    sStats.total = (matchingEvents dbStats pid0).length ∧
    sStats.errors = (matchingEvents dbStats pid0).countP (fun e => decide (400 ≤ e.2.status)) ∧
    sStats.avg_latency = ((matchingEvents dbStats pid0).map (fun e => e.2.latency_ms)).sum
      / ((matchingEvents dbStats pid0).length : ℚ) :=
  stats_aggregate_values dbStats pid0 90000 sStats dbStats_stats_eval (by decide)

/-- Claim C8.  For any stats call (with server-assigned timestamps never in
the future), the hourly series is strictly ascending in bucket start time,
every reported bucket has a positive count, each bucket's count is exactly
the number of the project's events inside the trailing 24-hour window whose
creation time truncates to that bucket start, and every windowed event of
the project has its truncated hour present in the series (sparse but
complete coverage of the window). -/
theorem stats_hourly_series (db : DB) (pid : String) (now : Int) (s : StatsResp)
    (hok : project_stats db pid now = Except.ok s)
    (hpast : ∀ e ∈ db.apievents, e.2.created_at ≤ now) :
    (s.hourly.map Prod.fst).Pairwise (· < ·) ∧
    (∀ b ∈ s.hourly, 0 < b.2) ∧
    (∀ hr c, (hr, c) ∈ s.hourly →
      c = (matchingEvents db pid).countP (fun e =>
        decide (now - 86400 ≤ e.2.created_at) && decide (e.2.created_at ≤ now) &&
        (truncHour e.2.created_at == hr))) ∧
    (∀ e ∈ db.apievents, e.2.project_id = pid → now - 86400 ≤ e.2.created_at →
      truncHour e.2.created_at ∈ s.hourly.map Prod.fst) := by
  unfold project_stats at hok
  by_cases hv : isValidObjectId pid = true
  case neg =>
    exfalso
    rw [if_neg hv] at hok
    cases hok
  rw [hv, if_pos rfl, Except.ok.injEq] at hok
  subst hok
  dsimp only
  refine ⟨?_, ?_, ?_, ?_⟩
  · rw [hourlySeries_map_fst]
    exact List.Sorted.lt_of_le (List.sorted_insertionSort _ _)
      (((List.perm_insertionSort _ _).nodup_iff).mpr (List.nodup_dedup _))
  · rintro ⟨hr, c⟩ hb
    obtain ⟨hmem, hc⟩ := (hourlySeries_mem _ _ _ _).mp hb
    obtain ⟨e, he, hteq⟩ := List.mem_map.mp hmem
    subst hc
    have hein : e ∈ (((matchingEvents db pid).map (fun e => e.2)).filter
        (fun x => decide (now - 86400 ≤ x.created_at))).filter
        (fun x => truncHour x.created_at == hr) := by
      rw [List.mem_filter]
      exact ⟨he, by simp [hteq]⟩
    exact List.length_pos.mpr (List.ne_nil_of_mem hein)
  · intro hr c hb
    obtain ⟨hmem, hc⟩ := (hourlySeries_mem _ _ _ _).mp hb
    subst hc
    rw [← List.countP_eq_length_filter, List.countP_filter, List.countP_map]
    apply countP_ext
    intro a ha
    have hnow : decide (a.2.created_at ≤ now) = true :=
      decide_eq_true (hpast a (List.mem_of_mem_filter ha))
    simp only [Function.comp_apply]
    rw [hnow]
    cases truncHour a.2.created_at == hr <;>
      cases decide (now - 86400 ≤ a.2.created_at) <;> simp
  · intro e he hproj hwin
    rw [hourlySeries_map_fst, (List.perm_insertionSort _ _).mem_iff, List.mem_dedup]
    have h1 : e ∈ matchingEvents db pid := by
      rw [matchingEvents, List.mem_filter]
      exact ⟨he, by simp [hproj]⟩
    have h3 : e.2 ∈ ((matchingEvents db pid).map (fun e => e.2)).filter
        (fun x => decide (now - 86400 ≤ x.created_at)) := by
      rw [List.mem_filter]
      exact ⟨List.mem_map_of_mem _ h1, decide_eq_true hwin⟩
    exact List.mem_map_of_mem _ h3

/-- Evaluation of the stats endpoint on `dbHour` at server time 90000: the
event at time 1000 falls outside the 24-hour window, the events at 4000 and
4100 share hour bucket 3600, and the event at 90000 sits in bucket 90000. -/
theorem dbHour_stats_eval : project_stats dbHour pid0 90000 = Except.ok sHour := by
  have havg : avgLatency (matchingEvents dbHour pid0) = 1 := by
    have hm : matchingEvents dbHour pid0 =
        [("h1", mkEvt 200 1 1000), ("h2", mkEvt 200 1 4000),
         ("h3", mkEvt 503 1 4100), ("h4", mkEvt 200 1 90000)] := by
      decide
    rw [hm]
    unfold avgLatency
    norm_num [mkEvt]
  have hv : isValidObjectId pid0 = true := by decide
  unfold project_stats
  rw [hv, if_pos rfl, havg]
  exact congrArg Except.ok (by decide)

/-- Witness for C8: on `dbHour` the series is `[(3600, 2), (90000, 1)]` —
sorted, positive, omitting the out-of-window event at time 1000 and every
empty hour. -/
theorem stats_hourly_series_witness :
    (sHour.hourly.map Prod.fst).Pairwise (· < ·) ∧
    (∀ b ∈ sHour.hourly, 0 < b.2) ∧
    (∀ hr c, (hr, c) ∈ sHour.hourly →
      c = (matchingEvents dbHour pid0).countP (fun e =>
        decide (90000 - 86400 ≤ e.2.created_at) && decide (e.2.created_at ≤ 90000) &&
        (truncHour e.2.created_at == hr))) ∧
    (∀ e ∈ dbHour.apievents, e.2.project_id = pid0 → 90000 - 86400 ≤ e.2.created_at →
      truncHour e.2.created_at ∈ sHour.hourly.map Prod.fst) :=
  stats_hourly_series dbHour pid0 90000 sHour dbHour_stats_eval (by decide)

/-- Claim C9.  For every persisted event: a supplied (non-empty) explicit
`ip` field wins over the forwarded-for header, with the field absent a
present non-empty header contributes its first comma-separated entry
(stripped), and with both absent the stored `ip` is `none`. -/
theorem ingest_ip_resolution (db : DB) (ev : IngestEvent) (xff uaH : Option String)
    (new_id : String) (now : Int) (db' : DB) (eid : String)
    (hok : ingest db ev xff uaH new_id now = Except.ok (db', eid)) :
    ∃ st : StoredEvent, db'.apievents = db.apievents ++ [(eid, st)] ∧
      (∀ s, ev.ip = some s → s ≠ "" → st.ip = some s) ∧
      (ev.ip = none → ∀ h, xff = some h → h ≠ "" →
        st.ip = some (firstForwardedEntry h)) ∧
      (ev.ip = none → xff = none → st.ip = none) := by
  obtain ⟨pr, _, hid, hdb⟩ := ingest_ok_elim db ev xff uaH new_id now db' eid hok
  subst hid
  subst hdb
  refine ⟨⟨buildEvent db ev xff uaH pr.1, now⟩, rfl, ?_, ?_, ?_⟩
  · intro s hs hne
    show pyOrStr ev.ip (headerIp xff) = some s
    rw [hs]
    simp only [pyOrStr]
    rw [if_neg (by simpa using hne)]
  · intro hnone h hh hne
    show pyOrStr ev.ip (headerIp xff) = some (firstForwardedEntry h)
    rw [hnone, hh]
    simp only [pyOrStr, headerIp]
    rw [if_neg (by simpa using hne)]
  · intro hnone hxff
    show pyOrStr ev.ip (headerIp xff) = none
    rw [hnone, hxff]
    rfl

/-- Witness for C9: explicit `ip = "1.2.3.4"` beats the header
"9.9.9.9, 8.8.8.8". -/
theorem ingest_ip_resolution_witness :
    ∃ st : StoredEvent, db9.apievents = db1.apievents ++ [("eid9", st)] ∧
      st.ip = some "1.2.3.4" := by
  obtain ⟨st, h1, h2, _, _⟩ := ingest_ip_resolution db1 ev9 (some "9.9.9.9, 8.8.8.8")
    none "eid9" 5000 db9 "eid9" (by rfl)
  exact ⟨st, h1, h2 "1.2.3.4" rfl (by decide)⟩

/-- Claim C10.  A payload `ip` (or `user_agent`) present but equal to the
empty string is treated as absent — Python truthiness in
`event.ip or ...` / `event.user_agent or user_agent` — so the stored value
is exactly the fallback source: the header-derived ip, respectively the
user-agent header. -/
theorem ingest_empty_fields_fall_back (db : DB) (ev : IngestEvent) (xff uaH : Option String)
    (new_id : String) (now : Int) (db' : DB) (eid : String)
    (hok : ingest db ev xff uaH new_id now = Except.ok (db', eid)) :
    ∃ st : StoredEvent, db'.apievents = db.apievents ++ [(eid, st)] ∧
      (ev.ip = some "" → st.ip = headerIp xff) ∧
      (ev.user_agent = some "" → st.user_agent = uaH) := by
  obtain ⟨pr, _, hid, hdb⟩ := ingest_ok_elim db ev xff uaH new_id now db' eid hok
  subst hid
  subst hdb
  refine ⟨⟨buildEvent db ev xff uaH pr.1, now⟩, rfl, ?_, ?_⟩
  · intro hs
    show pyOrStr ev.ip (headerIp xff) = headerIp xff
    rw [hs]
    rfl
  · intro hs
    show pyOrStr ev.user_agent uaH = uaH
    rw [hs]
    rfl

/-- Witness for C10: empty-string `ip` and `user_agent` fields fall back to
the forwarded-for header "7.7.7.7" and the user-agent header "UA". -/
theorem ingest_empty_fields_fall_back_witness :
    ∃ st : StoredEvent, db10.apievents = db1.apievents ++ [("eid10", st)] ∧
      st.ip = some "7.7.7.7" ∧ st.user_agent = some "UA" := by
  obtain ⟨st, h1, h2, h3⟩ := ingest_empty_fields_fall_back db1 ev10 (some "7.7.7.7")
    (some "UA") "eid10" 5000 db10 "eid10" (by rfl)
  refine ⟨st, h1, ?_, h3 rfl⟩
  rw [h2 rfl]
  rfl
